import Mathlib

/-!
Shallow embedding of the dynatrace-mcp-enhanced orchestration core, and proofs
of its specified properties.

The embedding follows the JavaScript source:
* `src/integrations/chat-handler.js` — the second (operative) `ChatHandler`
  definition in the file: `classifyRequest`, `handleMessage`, the intent
  handlers, `formatResponse`, `formatErrorResponse`.
* `src/server/redis-middleware.js` — `RedisMiddleware` (cache key derivation,
  get/set, Dynatrace query cache helpers) and `SessionManager`
  (`createSession`, `updateSession`, `addMessage`, `extractADTContext`).
* `src/integrations/dynatrace-api.js` — `DynatraceAPI.authenticate` and
  `DynatraceAPI.ensureAuthenticated` (the OAuth token manager).

Modelling conventions:
* JavaScript strings are Lean `String`s; `toLowerCase`, `includes`,
  `startsWith`, `substring(0, n)` are embedded as character-list operations
  (`jsToLower`, `jsIncludes`, `jsStartsWith`, `jsSubstring`).
* Network calls (the OAuth token endpoint, the live Dynatrace API, the Ollama
  model backend) are oracles passed in as function parameters; a call that can
  reject is an `Except`-valued oracle.
* `async` control flow becomes explicit state passing.  A JavaScript `async`
  method whose rejected promises can escape is `Except`-valued; note that in
  `handleMessage` the source returns the handler promises without `await`, so
  the surrounding `try/catch` catches only synchronous throws (that is, only
  `classifyRequest`, which is total on strings) — handler results therefore
  pass through unprotected, which the embedding mirrors by forwarding the
  handler value unchanged.
* The Redis store is modelled as `RedisState`: a connectivity flag plus a map
  from keys to stored values.  Serialization (`JSON.stringify`/`JSON.parse`)
  round-trips and is elided; server-side TTL expiry is out of the model (the
  `ttl` argument is kept for shape but no claim here depends on expiry).
* `new Date()` timestamps are supplied as parameters (`now`).
-/

namespace DMCP

/-! ## JavaScript string primitives -/

/-- Embedding of `message.toLowerCase()` (character-wise lowering). -/
def jsToLower (s : String) : String :=
  String.mk (s.data.map Char.toLower)

/-- Helper for substring search: does `pat` occur (contiguously) in `l`? -/
def hasSubstr : List Char → List Char → Bool
  | [], pat => pat.isEmpty
  | c :: rest, pat => pat.isPrefixOf (c :: rest) || hasSubstr rest pat

/-- Embedding of `s.includes(pat)`. -/
def jsIncludes (s pat : String) : Bool :=
  hasSubstr s.data pat.data

/-- Embedding of `s.startsWith(pat)`. -/
def jsStartsWith (s pat : String) : Bool :=
  pat.data.isPrefixOf s.data

/-- Embedding of `s.substring(0, n)`. -/
def jsSubstring (s : String) (n : Nat) : String :=
  String.mk (s.data.take n)

/-- Embedding of `arr.slice(-5)`: the last (at most) five elements. -/
def jsSliceNeg5 (l : List String) : List String :=
  l.drop (l.length - 5)

/-! ## RedisMiddleware (src/server/redis-middleware.js, lines 3–171) -/

namespace RedisMiddleware

/-- The shape of the `params` argument of `generateCacheKey`: either a scalar
string or a mapping (a JavaScript object, modelled as its insertion-ordered
key list plus a valuation). -/
inductive JsParams where
  | scalar (s : String)
  | mapping (keys : List String) (val : String → String)

/-- Boolean lexicographic comparison used to embed the JavaScript
`Array.prototype.sort()` default (lexicographic) ordering on keys. -/
def strLe (a b : String) : Bool :=
  decide (a ≤ b)

/-- Embedding of `RedisMiddleware.generateCacheKey` (lines 56–70): start from
`[type]`, push `key:value` for each lexicographically sorted mapping key (or
the scalar verbatim), and join the parts with `:`. -/
def generateCacheKey (type_ : String) (params : JsParams) : String :=
  let keyParts : List String :=
    match params with
    | .mapping keys val =>
        let sortedKeys := keys.mergeSort strLe
        type_ :: sortedKeys.map (fun k => k ++ ":" ++ val k)
    | .scalar s => [type_, s]
  String.intercalate ":" keyParts

/-- Values stored in the cache and passed to `formatResponse`: a plain string,
an object with a truthy `message` field, or any other object (rendered through
`JSON.stringify`, modelled by its rendering). -/
inductive Content where
  | str (s : String)
  | withMessage (message : String)
  | plain (json : String)
deriving DecidableEq

/-- The observable Redis state: connectivity flag plus stored values. -/
structure RedisState where
  connected : Bool
  store : String → Option Content

/-- Embedding of `RedisMiddleware.get` (lines 72–87): `null` when
disconnected, on a miss, or on an internal error (the catch returns `null`). -/
def get (st : RedisState) (key : String) : Option Content :=
  if st.connected then st.store key else none

/-- Embedding of `RedisMiddleware.set` (lines 89–103): best effort write
returning a success flag; a no-op returning `false` when disconnected.  The
`ttl` argument is retained for shape; expiry is enforced by the Redis server,
outside this model. -/
def set (st : RedisState) (key : String) (v : Content) (ttl : Nat) : RedisState × Bool :=
  if st.connected then
    ({ st with store := fun k => if k = key then some v else st.store k }, true)
  else (st, false)

/-- The cache key both Dynatrace query helpers derive (lines 152 and 157):
`generateCacheKey` applied to the category `dt:query` and the single-key mapping holding `query.substring(0, 100)`. -/
def dtQueryCacheKey (query : String) : String :=
  generateCacheKey "dt:query" (.mapping ["query"] (fun _ => jsSubstring query 100))

/-- Embedding of `RedisMiddleware.cacheDynatraceQuery` (lines 151–154). -/
def cacheDynatraceQuery (st : RedisState) (query : String) (result : Content) :
    RedisState × Bool :=
  set st (dtQueryCacheKey query) result 300

/-- Embedding of `RedisMiddleware.getCachedDynatraceQuery` (lines 156–159). -/
def getCachedDynatraceQuery (st : RedisState) (query : String) : Option Content :=
  get st (dtQueryCacheKey query)

end RedisMiddleware

/-! ## SessionManager (src/server/redis-middleware.js, lines 173–314) -/

namespace SessionManager

/-- The `adtContext` record produced by `extractADTContext`. -/
structure ADTContext where
  systems : List String
  problemType : Option String
  urgency : String
deriving DecidableEq

/-- The `context` sub-record of a session. -/
structure SessionContext where
  currentTopic : Option String
  dynatraceQueries : List String
  adtContext : Option ADTContext
deriving DecidableEq

/-- The `preferences` sub-record of a session. -/
structure Preferences where
  cacheEnabled : Bool
  responseFormat : String
deriving DecidableEq

/-- The `lastMessage` record written by `addMessage`. -/
structure LastMessage where
  message : String
  response : String
  timestamp : String
deriving DecidableEq

/-- A session record (`createSession`, lines 179–200).  Timestamps are plain
strings supplied by the caller. -/
structure Session where
  id : String
  createdAt : String
  updatedAt : String
  messageCount : Nat
  context : SessionContext
  preferences : Preferences
  lastMessage : Option LastMessage
deriving DecidableEq

/-- Embedding of `SessionManager.createSession` with no `initialData`
(the only call shape reached from `getSession`). -/
def createSession (sessionId now : String) : Session :=
  { id := sessionId
    createdAt := now
    updatedAt := now
    messageCount := 0
    context := { currentTopic := none, dynatraceQueries := [], adtContext := none }
    preferences := { cacheEnabled := true, responseFormat := "detailed" }
    lastMessage := none }

/-- The update record built by `addMessage` and merged by `updateSession`;
`context` is present only when a topic branch fires. -/
structure SessionUpdates where
  messageCount : Nat
  lastMessage : LastMessage
  context : Option SessionContext

/-- Embedding of `SessionManager.updateSession` (lines 213–223): spread the
stored session, overlay the update fields, refresh `updatedAt`. -/
def updateSession (s : Session) (u : SessionUpdates) (now : String) : Session :=
  { s with
    messageCount := u.messageCount
    lastMessage := some u.lastMessage
    context := u.context.getD s.context
    updatedAt := now }

/-- Embedding of `SessionManager.isDynatraceQuery` (lines 256–259). -/
def isDynatraceQuery (message : String) : Bool :=
  ["dql", "fetch", "problems", "entities", "metrics", "logs", "vulnerabilities"].any
    (fun keyword => jsIncludes (jsToLower message) keyword)

/-- Embedding of `SessionManager.isADTQuery` (lines 261–264). -/
def isADTQuery (message : String) : Bool :=
  ["oms", "myadt", "mobiletech", "mt2", "iib", "datapower", "mulesoft", "salesforce"].any
    (fun keyword => jsIncludes (jsToLower message) keyword)

/-- The `systemMentions` table of `extractADTContext`, in object-literal
order. -/
def systemMentions : List (String × List String) :=
  [("oms", ["oms", "order management"]),
   ("myadt", ["myadt", "customer portal"]),
   ("mt2", ["mt2", "mobiletech", "mobile tech"]),
   ("iib", ["iib", "integration bus"]),
   ("datapower", ["datapower", "data power"]),
   ("mulesoft", ["mulesoft", "cloudhub"])]

/-- Embedding of `SessionManager.extractADTContext` (lines 266–297): collect
mentioned systems in table order, then set urgency by a two-stage if/else-if
(`critical`/`down` win over `urgent`/`issue`; `problemType` is never
assigned). -/
def extractADTContext (message : String) : ADTContext :=
  let systems :=
    (systemMentions.filter
      (fun entry => entry.2.any (fun keyword => jsIncludes (jsToLower message) keyword))).map
      Prod.fst
  let urgency :=
    if jsIncludes (jsToLower message) "critical" || jsIncludes (jsToLower message) "down" then
      "critical"
    else if jsIncludes (jsToLower message) "urgent" || jsIncludes (jsToLower message) "issue" then
      "high"
    else "normal"
  { systems := systems, problemType := none, urgency := urgency }

/-- Embedding of `SessionManager.addMessage` (lines 225–254): bump the count,
record the truncated exchange, and conditionally rebuild `context`; the
resulting update record is merged by `updateSession`. -/
def addMessage (s : Session) (message response now : String) : Session :=
  let baseUpdates : SessionUpdates :=
    { messageCount := s.messageCount + 1
      lastMessage :=
        { message := message
          response := jsSubstring response 200 ++ "..."
          timestamp := now }
      context := none }
  let updates :=
    if isDynatraceQuery message then
      let ctx := { s.context with
        currentTopic := some "dynatrace"
        dynatraceQueries := jsSliceNeg5 (s.context.dynatraceQueries ++ [message]) }
      { baseUpdates with context := some ctx }
    else if isADTQuery message then
      let ctx := { s.context with
        currentTopic := some "adt"
        adtContext := some (extractADTContext message) }
      { baseUpdates with context := some ctx }
    else baseUpdates
  updateSession s updates now

/-- Iterated `addMessage` over a sequence of messages (fixed response text and
timestamp, which do not influence the context fields the claims are about). -/
def runMessages (s : Session) (msgs : List String) (response now : String) : Session :=
  msgs.foldl (fun acc m => addMessage acc m response now) s

end SessionManager

/-! ## DynatraceAPI token manager (src/integrations/dynatrace-api.js) -/

namespace DynatraceAPI

/-- The held credential state: `accessToken`/`tokenExpiry` start as `null` and
are always assigned together by a successful `authenticate`. -/
structure DTAuthState where
  accessToken : Option String
  tokenExpiry : Option Int
deriving DecidableEq

/-- Oracle outcome of one POST to the OAuth token endpoint: the returned
`access_token` and `expires_in` (seconds), or a failure diagnostic. -/
inductive AuthOutcome where
  | ok (accessToken : String) (expiresIn : Int)
  | failed (err : String)

/-- Return value of `authenticate`: `true`, or the failure object built in the
catch block (carrying a diagnostic). -/
inductive AuthReturn where
  | success
  | failure (err : String)
deriving DecidableEq

/-- Embedding of `DynatraceAPI.authenticate` (lines 14–54): one token
exchange; on success store the token and its absolute expiry
`Date.now() + expires_in * 1000` and return `true`; on failure return the
error object leaving the held credential untouched. -/
def authenticate (st : DTAuthState) (now : Int) (resp : AuthOutcome) :
    DTAuthState × AuthReturn :=
  match resp with
  | .ok tok expiresIn =>
      ({ accessToken := some tok, tokenExpiry := some (now + expiresIn * 1000) }, .success)
  | .failed e => (st, .failure e)

/-- The refresh condition of `ensureAuthenticated` (line 57):
`!this.accessToken || Date.now() >= this.tokenExpiry`.  (`getD 0` mirrors the
JavaScript coercion of `null` in the comparison; the fields are always set
together so the default is never the deciding case.) -/
def needsAuth (st : DTAuthState) (now : Int) : Bool :=
  st.accessToken.isNone || decide (now ≥ st.tokenExpiry.getD 0)

/-- Embedding of `DynatraceAPI.ensureAuthenticated` (lines 56–61), instrumented
with the number of network token exchanges the call performs (0 or 1). -/
def ensureAuthenticated (st : DTAuthState) (now : Int) (resp : AuthOutcome) :
    DTAuthState × AuthReturn × Nat :=
  if needsAuth st now then
    let (st', r) := authenticate st now resp
    (st', r, 1)
  else (st, .success, 0)

end DynatraceAPI

/-! ## ChatHandler (src/integrations/chat-handler.js, second definition,
lines 221–462) -/

namespace ChatHandler

open RedisMiddleware (RedisState Content)

/-- Result object produced by the live-API call (`dynatraceMCP.executeQuery`);
all produced shapes carry a `message` field; `json` stands for the
`JSON.stringify` rendering used when the result is embedded in a prompt. -/
structure ApiResult where
  realData : Bool
  message : String
  json : String

/-- Response object of the Ollama model backend (`ollama.chat`); the handler
reads its `message` field. -/
structure OllamaResp where
  message : String

/-- Embedding of `ChatHandler.buildDynatraceAnalysisContext`
(lines 351–368). -/
structure AnalysisContext where
  currentTopic : String
  expertiseArea : String
  apiData : ApiResult
  instructions : String

def buildDynatraceAnalysisContext (message : String) (apiResult : ApiResult) :
    AnalysisContext :=
  { currentTopic := "dynatrace"
    expertiseArea := "observability"
    apiData := apiResult
    instructions :=
      "You are analyzing real Dynatrace API results. The user asked: \"" ++ message ++
      "\".\n\nThe API returned: " ++ apiResult.json ++
      "\n\nPlease provide:\n- Analysis of what the results mean\n- Any patterns or issues identified  \n- Recommended next steps based on the data\n- Additional queries that might be helpful\n\nKeep the explanation practical and actionable." }

/-- The outside collaborators of the handler, as oracles.

`executeQuery` (the `DynatraceMCPBridge` live-API call) and `ollamaChat` (the
Ollama model backend, called with an optional analysis context) are network
calls whose promises may reject, hence `Except`-valued.

Modelled from the spec: `knowledge-base.js` is not present in the source tree
(only its import and call sites are).  Spec §4.5 states the knowledge lookup
"always succeeds (a generic default document exists for no-match)", so
`knowledgeQuery` is a total function from the message to the returned
document content.  `now` stands for `new Date().toISOString()` and
`environmentUrl` for the configured environment URL fallback read by `generateHelpResponse`. -/
structure Env where
  executeQuery : String → Except String ApiResult
  ollamaChat : String → Option AnalysisContext → Except String OllamaResp
  knowledgeQuery : String → Content
  now : String
  environmentUrl : String

/-- The live-query keyword rule of `classifyRequest` (lines 268–270). -/
def hasLiveMarker (msg : String) : Bool :=
  jsIncludes msg "dql" || jsIncludes msg "fetch" || jsIncludes msg "problems" ||
  jsIncludes msg "vulnerabilities" || jsIncludes msg "entities" ||
  jsIncludes msg "logs" || jsIncludes msg "metrics" || jsIncludes msg "dynatrace"

/-- The conversational rule of `classifyRequest` (lines 276–277). -/
def hasChatMarker (msg : String) : Bool :=
  jsIncludes msg "explain" || jsIncludes msg "how do" || jsIncludes msg "what is" ||
  jsIncludes msg "help me" || jsStartsWith msg "can you"

/-- The troubleshooting rule of `classifyRequest` (lines 283–284). -/
def hasKnowledgeMarker (msg : String) : Bool :=
  jsIncludes msg "troubleshoot" || jsIncludes msg "investigate" ||
  jsIncludes msg "correlate" || jsIncludes msg "methodology"

/-- The help rule of `classifyRequest` (line 290). -/
def hasHelpMarker (msg : String) : Bool :=
  jsIncludes msg "help" || jsIncludes msg "guide" || jsIncludes msg "how to"

/-- Embedding of `ChatHandler.classifyRequest` (second definition,
lines 263–297): first-match rule evaluation over the lower-cased message,
defaulting to `general_help`. -/
def classifyRequest (message : String) : String :=
  let msg := jsToLower message
  if hasLiveMarker msg then "dynatrace_query"
  else if hasChatMarker msg then "ollama_chat"
  else if hasKnowledgeMarker msg then "knowledge_query"
  else if hasHelpMarker msg then "general_help"
  else "general_help"

/-- Embedding of `ChatHandler.formatResponse` (lines 432–445): render the
content (string, `.message` field, or JSON) and append the provenance and
timestamp trailer. -/
def formatResponse (content : Content) (source timestamp : String) : String :=
  let formatted :=
    match content with
    | .str s => s
    | .withMessage m => m
    | .plain j => j
  formatted ++ "\n\n_Source: " ++ source ++ " | " ++ timestamp ++ "_"

/-- Embedding of `ChatHandler.formatErrorResponse` (lines 447–461), applied to
`error.message`. -/
def formatErrorResponse (errMessage : String) : String :=
  "❌ **Error occurred**: " ++ errMessage ++
  "\n\n**Available features:**\n- 🎯 Dynatrace API integration\n- 🤖 AI analysis and explanation  \n- 📦 Redis caching for performance\n\n**Try:**\n- \"Are there any problems?\"\n- \"Explain microservices\"\n- \"What\x27s the environment status?\"\n\nNeed help? Try asking: \"help\""

/-- Embedding of `ChatHandler.generateHelpResponse` (lines 395–430); the
returned object also carries a `suggestions` array that `formatResponse`
never reads, so only the `message` field is modelled. -/
def generateHelpResponse (environmentUrl : String) : Content :=
  .withMessage
    ("👋 **Enhanced Dynatrace MCP Assistant**\n\n**🚀 NOW WITH REAL API INTEGRATION!**\n\n🔍 **Dynatrace Queries** → Live API + AI Analysis\n- \"Are there any current problems?\" → Real API call + Phi3 analysis\n- \"fetch dt.davis.problems\" → Execute DQL + interpretation  \n- \"Show me error logs\" → Live data + pattern analysis\n\n💬 **General Questions** → Phi3 AI\n- \"Explain distributed systems\"\n- \"How does Kubernetes work?\"\n\n📊 **Troubleshooting** → Knowledge Base\n- \"Investigation methodology\"\n- \"Best practices\"\n\n**✨ What\x27s Working:**\n- 🎯 **Real API Calls** to " ++
     environmentUrl ++
     "\n- 🤖 **AI Analysis** of live results\n- 📦 **Redis Caching** for performance\n\n**Try these working queries:**\n- \"Are there any current problems?\"\n- \"Show me recent vulnerabilities\"  \n- \"What\x27s the environment status?\"")

/-- Embedding of `ChatHandler.handleKnowledgeQuery` (lines 370–373). -/
def handleKnowledgeQuery (message sessionId : String) (env : Env) (st : RedisState) :
    Except String (String × RedisState) :=
  .ok (formatResponse (env.knowledgeQuery message) "knowledge" env.now, st)

/-- Embedding of `ChatHandler.handleOllamaChat` (lines 375–384): try the model
backend, tagging success `phi3-general`; on failure fall back to the knowledge
base. -/
def handleOllamaChat (message sessionId : String) (env : Env) (st : RedisState) :
    Except String (String × RedisState) :=
  match env.ollamaChat message none with
  | .ok r => .ok (formatResponse (.withMessage r.message) "phi3-general" env.now, st)
  | .error _ => handleKnowledgeQuery message sessionId env st

/-- Embedding of `ChatHandler.handleDynatraceQuery` (lines 299–349): cache
lookup first (`cache` provenance on a hit); on a miss call the live API; on
real data optionally enrich with a model analysis (enrichment failure keeps
the primary data); cache and tag the combined result; if the live call itself
throws, fall back to `handleOllamaChat`. -/
def handleDynatraceQuery (message sessionId : String) (env : Env) (st : RedisState) :
    Except String (String × RedisState) :=
  match RedisMiddleware.getCachedDynatraceQuery st message with
  | some cached => .ok (formatResponse cached "cache" env.now, st)
  | none =>
      match env.executeQuery message with
      | .error _ => handleOllamaChat message sessionId env st
      | .ok apiResult =>
          let combinedResponse : Content :=
            if apiResult.realData then
              match env.ollamaChat ("Analyze these Dynatrace results: " ++ message)
                  (some (buildDynatraceAnalysisContext message apiResult)) with
              | .ok phi3 =>
                  .withMessage (apiResult.message ++ "\n\n---\n\n**🤖 AI Analysis:**\n" ++
                    phi3.message)
              | .error _ => .withMessage apiResult.message
            else .withMessage apiResult.message
          let st' := (RedisMiddleware.cacheDynatraceQuery st message combinedResponse).1
          .ok (formatResponse combinedResponse "dynatrace-working-api" env.now, st')

/-- Embedding of `ChatHandler.handleGeneralHelp` (lines 386–389). -/
def handleGeneralHelp (message sessionId : String) (env : Env) (st : RedisState) :
    Except String (String × RedisState) :=
  .ok (formatResponse (generateHelpResponse env.environmentUrl) "help" env.now, st)

/-- Embedding of `ChatHandler.handleDefault` (lines 391–393). -/
def handleDefault (message sessionId : String) (env : Env) (st : RedisState) :
    Except String (String × RedisState) :=
  handleGeneralHelp message sessionId env st

/-- Embedding of `ChatHandler.handleMessage` (lines 236–261): classify, then
dispatch (the `switch`).  The source returns each handler promise without
`await`, so the surrounding `try/catch` (whose catch would return
`formatErrorResponse`) guards only the synchronous classification, which is
total on strings; handler outcomes — including any rejection — are therefore
forwarded unchanged, which this definition mirrors. -/
def handleMessage (message sessionId : String) (env : Env) (st : RedisState) :
    Except String (String × RedisState) :=
  let requestType := classifyRequest message
  if requestType = "dynatrace_query" then handleDynatraceQuery message sessionId env st
  else if requestType = "knowledge_query" then handleKnowledgeQuery message sessionId env st
  else if requestType = "ollama_chat" then handleOllamaChat message sessionId env st
  else if requestType = "general_help" then handleGeneralHelp message sessionId env st
  else handleDefault message sessionId env st

end ChatHandler

/-! ## Shared helper lemmas -/

open RedisMiddleware SessionManager DynatraceAPI ChatHandler

/-- `classifyRequest` always lands in one of the four intent strings. -/
lemma classifyRequest_cases (message : String) :
    classifyRequest message = "dynatrace_query" ∨
    classifyRequest message = "ollama_chat" ∨
    classifyRequest message = "knowledge_query" ∨
    classifyRequest message = "general_help" := by
  simp only [classifyRequest]
  split
  · exact Or.inl rfl
  · split
    · exact Or.inr (Or.inl rfl)
    · split
      · exact Or.inr (Or.inr (Or.inl rfl))
      · split
        · exact Or.inr (Or.inr (Or.inr rfl))
        · exact Or.inr (Or.inr (Or.inr rfl))

/-- A call performs an exchange exactly when `needsAuth` holds. -/
lemma ensureAuthenticated_count_iff (st : DTAuthState) (now : Int) (resp : AuthOutcome) :
    (ensureAuthenticated st now resp).2.2 = 1 ↔ needsAuth st now = true := by
  unfold ensureAuthenticated
  by_cases h : needsAuth st now = true
  · rw [if_pos h]
    cases resp <;> simp [authenticate, h]
  · rw [if_neg h]
    simpa using h

/-- Unfolding of the refresh condition. -/
lemma needsAuth_iff (st : DTAuthState) (now : Int) :
    needsAuth st now = true ↔
      (st.accessToken.isNone = true ∨ now ≥ st.tokenExpiry.getD 0) := by
  simp [needsAuth]

/-- A held, not-yet-expired credential never triggers a refresh. -/
lemma needsAuth_false_of_valid (st : DTAuthState) (now : Int)
    (hsome : st.accessToken.isSome = true) (hlt : now < st.tokenExpiry.getD 0) :
    needsAuth st now = false := by
  rcases st with ⟨tok, exp⟩
  cases tok
  · simp at hsome
  · simp only [needsAuth, Option.isNone_some, Bool.false_or, decide_eq_false_iff_not, not_le]
    exact hlt

/-- Without a refresh, `ensureAuthenticated` returns `true` and changes
nothing. -/
lemma ensureAuthenticated_of_not_needsAuth (st : DTAuthState) (now : Int)
    (resp : AuthOutcome) (h : needsAuth st now = false) :
    ensureAuthenticated st now resp = (st, .success, 0) := by
  simp [ensureAuthenticated, h]

/-- `strLe` is transitive (as a Bool relation). -/
lemma strLe_trans : ∀ a b c : String, strLe a b = true → strLe b c = true → strLe a c = true := by
  intro a b c h₁ h₂
  simp only [strLe, decide_eq_true_eq] at *
  exact le_trans h₁ h₂

/-- `strLe` is total (as a Bool relation). -/
lemma strLe_total : ∀ a b : String, (strLe a b || strLe b a) = true := by
  intro a b
  simp only [strLe, Bool.or_eq_true, decide_eq_true_eq]
  exact le_total a b

/-- Sorting with `strLe` is invariant under permutation of the input. -/
lemma mergeSort_strLe_eq_of_perm {l₁ l₂ : List String} (h : l₁.Perm l₂) :
    l₁.mergeSort strLe = l₂.mergeSort strLe := by
  haveI : IsAntisymm String (fun a b => strLe a b = true) :=
    ⟨fun a b ha hb => le_antisymm
      (by simpa [strLe] using ha) (by simpa [strLe] using hb)⟩
  refine List.eq_of_perm_of_sorted (r := fun a b => strLe a b = true)
    ((List.mergeSort_perm l₁ _).trans (h.trans (List.mergeSort_perm l₂ _).symm)) ?_ ?_
  · exact List.sorted_mergeSort strLe_trans strLe_total l₁
  · exact List.sorted_mergeSort strLe_trans strLe_total l₂

/-- One `addMessage` step on a live-query message: the new `dynatraceQueries`
is the last-five slice of the old list with the message appended. -/
lemma addMessage_dynatraceQueries (s : Session) (message response now : String)
    (h : isDynatraceQuery message = true) :
    (addMessage s message response now).context.dynatraceQueries =
      jsSliceNeg5 (s.context.dynatraceQueries ++ [message]) := by
  simp [addMessage, updateSession, h]

/-! ## Claims -/

/-- Claim C3: `classifyRequest` evaluates its rules over the lower-cased
message in the fixed priority order LiveQuery, ModelChat, KnowledgeQuery, Help
with first match winning: any message containing a LiveQuery marker classifies
as `dynatrace_query` even when a ModelChat marker co-occurs, and any message
with a ModelChat marker but no LiveQuery marker classifies as `ollama_chat`
even when a KnowledgeQuery marker co-occurs; classification is total and
always returns exactly one of the four intents. -/
theorem C3_classifier_priority (message : String) :
    (hasLiveMarker (jsToLower message) = true →
      classifyRequest message = "dynatrace_query") ∧
    (hasLiveMarker (jsToLower message) = false →
      hasChatMarker (jsToLower message) = true →
        classifyRequest message = "ollama_chat") ∧
    (classifyRequest message = "dynatrace_query" ∨
     classifyRequest message = "ollama_chat" ∨
     classifyRequest message = "knowledge_query" ∨
     classifyRequest message = "general_help") := by
  refine ⟨fun h => ?_, fun h₁ h₂ => ?_, classifyRequest_cases message⟩
  · simp [classifyRequest, h]
  · simp [classifyRequest, h₁, h₂]

/-- Claim C3 witness: `"can you explain the problems list"` carries both a
LiveQuery marker (`problems`) and ModelChat markers (`explain`, leading
`can you`) and classifies as `dynatrace_query`; `"explain how to troubleshoot"`
carries a ModelChat marker (`explain`) and a KnowledgeQuery marker
(`troubleshoot`) but no LiveQuery marker and classifies as `ollama_chat`. -/
theorem C3_classifier_priority_witness :
    classifyRequest "can you explain the problems list" = "dynatrace_query" ∧
    classifyRequest "explain how to troubleshoot" = "ollama_chat" :=
  ⟨(C3_classifier_priority "can you explain the problems list").1 (by decide),
   (C3_classifier_priority "explain how to troubleshoot").2.1 (by decide) (by decide)⟩

/-- Claim C8: for every message containing a highest-urgency keyword
(`critical` or `down`), `extractADTContext` returns the highest urgency level
(`critical`), regardless of whether a lower-urgency keyword (`urgent` or
`issue`) also occurs anywhere in the same message: the lower-urgency test sits
in the `else` branch of the high-urgency test, so it can never downgrade the
result. -/
theorem C8_urgency_monotone (message : String)
    (h : (jsIncludes (jsToLower message) "critical" ||
          jsIncludes (jsToLower message) "down") = true) :
    (extractADTContext message).urgency = "critical" := by
  simp only [extractADTContext]
  rw [if_pos h]

/-- Claim C8 witness: a message mentioning `critical` first and the
lower-urgency keywords `urgent` and `issue` later still extracts urgency
`critical`. -/
theorem C8_urgency_monotone_witness :
    (extractADTContext "oms is critical, plus an urgent datapower issue").urgency =
      "critical" :=
  C8_urgency_monotone "oms is critical, plus an urgent datapower issue" (by decide)

/-- Claim C9: `addMessage` (whose update record is merged over the stored
session by `updateSession`) leaves every session field not named in the update
unchanged — in particular `id`, `createdAt` and `preferences` — while
refreshing `updatedAt` and incrementing `messageCount`; when neither topic
rule matches, `context` is also left unchanged. -/
theorem C9_frame_preservation (s : Session) (message response now : String) :
    (addMessage s message response now).id = s.id ∧
    (addMessage s message response now).createdAt = s.createdAt ∧
    (addMessage s message response now).preferences = s.preferences ∧
    (addMessage s message response now).updatedAt = now ∧
    (addMessage s message response now).messageCount = s.messageCount + 1 ∧
    (isDynatraceQuery message = false → isADTQuery message = false →
      (addMessage s message response now).context = s.context) := by
  cases hdt : isDynatraceQuery message <;> cases hadt : isADTQuery message <;>
    simp_all [addMessage, updateSession]

/-- Claim C5 counterexample: the claim asserts a positive safety margin, i.e.
some `margin > 0` such that `ensureAuthenticated` performs a token exchange
exactly when the credential is absent or `now ≥ expiresAt - margin`.  No such
margin exists: for any candidate `margin > 0`, at the concrete state holding
token `"tok"` with `expiresAt = margin` and `now = 0` the claimed condition
holds (`0 ≥ margin - margin`) yet the code performs no exchange
(`0 ≥ margin` is false). -/
theorem C5_refresh_margin_counterexample :
    ¬ ∃ margin : Int, 0 < margin ∧
      ∀ (st : DTAuthState) (now : Int) (resp : AuthOutcome),
        ((ensureAuthenticated st now resp).2.2 = 1 ↔
          (st.accessToken.isNone = true ∨ now ≥ st.tokenExpiry.getD 0 - margin)) := by
  rintro ⟨margin, hpos, h⟩
  have hc := h { accessToken := some "tok", tokenExpiry := some margin } 0 (.failed "e")
  have h1 : (ensureAuthenticated
      { accessToken := some "tok", tokenExpiry := some margin } 0 (.failed "e")).2.2 = 1 :=
    hc.mpr (Or.inr (by simp))
  have h2 := (ensureAuthenticated_count_iff _ _ _).mp h1
  have h3 := (needsAuth_iff _ _).mp h2
  simp only [Option.isNone_some, Option.getD_some, ge_iff_le] at h3
  rcases h3 with h3 | h3
  · cases h3
  · omega

/-- Claim C5 amended: `ensureAuthenticated` triggers a new client-credentials
exchange exactly when the held credential is absent or `now ≥ expiresAt`, with
no safety margin: a held credential is reused at every instant strictly before
its stored expiry, and a refresh happens only at or after the expiry
instant. -/
theorem C5_refresh_exactly_at_expiry (st : DTAuthState) (now : Int) (resp : AuthOutcome) :
    ((ensureAuthenticated st now resp).2.2 = 1 ↔
      (st.accessToken.isNone = true ∨ now ≥ st.tokenExpiry.getD 0)) ∧
    (st.accessToken.isSome = true → now < st.tokenExpiry.getD 0 →
      ensureAuthenticated st now resp = (st, .success, 0)) := by
  constructor
  · exact (ensureAuthenticated_count_iff st now resp).trans (needsAuth_iff st now)
  · intro hsome hlt
    exact ensureAuthenticated_of_not_needsAuth st now resp
      (needsAuth_false_of_valid st now hsome hlt)

/-- Claim C5 amended witness: with a held token expiring at instant 1000, a
call at instant 999 performs no exchange and leaves the state unchanged, while
a call on the empty initial state performs one. -/
theorem C5_refresh_exactly_at_expiry_witness :
    ensureAuthenticated { accessToken := some "tok", tokenExpiry := some 1000 } 999
        (.failed "net") =
      ({ accessToken := some "tok", tokenExpiry := some 1000 }, .success, 0) ∧
    (ensureAuthenticated { accessToken := none, tokenExpiry := none } 999
        (.failed "net")).2.2 = 1 :=
  ⟨(C5_refresh_exactly_at_expiry _ 999 _).2 (by decide) (by decide),
   (C5_refresh_exactly_at_expiry _ 999 _).1.mpr (Or.inl rfl)⟩

/-- Claim C6: credential reuse.  Starting from the empty credential state, a
first `ensureAuthenticated` call whose exchange succeeds performs exactly one
network token exchange and stores the credential with absolute expiry
`now + expires_in * 1000`; a second call at any instant strictly inside the
validity window performs no exchange and leaves the held credential unchanged
— one exchange in total. -/
theorem C6_credential_reuse (t₁ t₂ : Int) (tok : String) (life : Int)
    (resp₂ : AuthOutcome) (h : t₂ < t₁ + life * 1000) :
    (ensureAuthenticated { accessToken := none, tokenExpiry := none } t₁
        (.ok tok life)).2.2 = 1 ∧
    (ensureAuthenticated { accessToken := none, tokenExpiry := none } t₁
        (.ok tok life)).1 =
      { accessToken := some tok, tokenExpiry := some (t₁ + life * 1000) } ∧
    ensureAuthenticated { accessToken := some tok, tokenExpiry := some (t₁ + life * 1000) }
        t₂ resp₂ =
      ({ accessToken := some tok, tokenExpiry := some (t₁ + life * 1000) }, .success, 0) := by
  refine ⟨rfl, rfl, ?_⟩
  exact ensureAuthenticated_of_not_needsAuth _ t₂ resp₂
    (needsAuth_false_of_valid _ t₂ rfl (by simpa using h))

/-- Claim C6 witness: token obtained at instant 0 with a 300-second lifetime
is reused without a second exchange at instant 1000. -/
theorem C6_credential_reuse_witness :
    (ensureAuthenticated { accessToken := none, tokenExpiry := none } 0
        (.ok "tok" 300)).2.2 = 1 ∧
    ensureAuthenticated { accessToken := some "tok", tokenExpiry := some 300000 } 1000
        (.failed "net") =
      ({ accessToken := some "tok", tokenExpiry := some 300000 }, .success, 0) := by
  have h := C6_credential_reuse 0 1000 "tok" 300 (.failed "net") (by decide)
  exact ⟨h.1, by simpa using h.2.2⟩

/-- Claim C4: cache-key derivation is order-independent on mappings — for any
two mappings with the same key/value pairs in any construction order,
`generateCacheKey` yields identical keys because mapping keys are sorted
lexicographically before concatenation — and a scalar parameter is appended
verbatim. -/
theorem C4_cache_key_order_independence :
    (∀ (type_ : String) (keys₁ keys₂ : List String) (val₁ val₂ : String → String),
      keys₁.Perm keys₂ →
      (∀ k ∈ keys₁, val₁ k = val₂ k) →
      generateCacheKey type_ (.mapping keys₁ val₁) =
        generateCacheKey type_ (.mapping keys₂ val₂)) ∧
    (∀ type_ s : String, generateCacheKey type_ (.scalar s) = type_ ++ ":" ++ s) := by
  constructor
  · intro type_ keys₁ keys₂ val₁ val₂ hperm hval
    simp only [generateCacheKey]
    rw [mergeSort_strLe_eq_of_perm hperm]
    have hmap : (keys₂.mergeSort strLe).map (fun k => k ++ ":" ++ val₁ k) =
        (keys₂.mergeSort strLe).map (fun k => k ++ ":" ++ val₂ k) := by
      refine List.map_congr_left fun k hk => ?_
      have hk₁ : k ∈ keys₁ := hperm.mem_iff.mpr (List.mem_mergeSort.mp hk)
      rw [hval k hk₁]
    rw [hmap]
  · intro type_ s
    rfl

/-- Claim C4 witness: the mappings written `b:2, a:1` and `a:1, b:2` derive
the same key. -/
theorem C4_cache_key_order_independence_witness :
    generateCacheKey "dt" (.mapping ["b", "a"] (fun k => if k = "a" then "1" else "2")) =
      generateCacheKey "dt" (.mapping ["a", "b"] (fun k => if k = "a" then "1" else "2")) :=
  C4_cache_key_order_independence.1 "dt" ["b", "a"] ["a", "b"] _ _ (by decide)
    (fun _ _ => rfl)

/-- Claim C7: under `addMessage`, the `dynatraceQueries` list never exceeds
five entries, and running seven live-query messages from an empty list leaves
exactly the last five, in insertion order, with the two oldest evicted. -/
theorem C7_session_fifo :
    (∀ (s : Session) (m response now : String),
        s.context.dynatraceQueries.length ≤ 5 →
        (addMessage s m response now).context.dynatraceQueries.length ≤ 5) ∧
    (∀ (s : Session) (m₁ m₂ m₃ m₄ m₅ m₆ m₇ response now : String),
        s.context.dynatraceQueries = [] →
        isDynatraceQuery m₁ = true → isDynatraceQuery m₂ = true →
        isDynatraceQuery m₃ = true → isDynatraceQuery m₄ = true →
        isDynatraceQuery m₅ = true → isDynatraceQuery m₆ = true →
        isDynatraceQuery m₇ = true →
        (runMessages s [m₁, m₂, m₃, m₄, m₅, m₆, m₇] response now).context.dynatraceQueries =
          [m₃, m₄, m₅, m₆, m₇]) := by
  constructor
  · intro s m response now h
    cases hdt : isDynatraceQuery m
    · cases hadt : isADTQuery m <;> simp_all [addMessage, updateSession]
    · rw [addMessage_dynatraceQueries _ _ _ _ hdt]
      simp only [jsSliceNeg5, List.length_drop]
      omega
  · intro s m₁ m₂ m₃ m₄ m₅ m₆ m₇ response now hs h₁ h₂ h₃ h₄ h₅ h₆ h₇
    have e₁ : (addMessage s m₁ response now).context.dynatraceQueries = [m₁] := by
      rw [addMessage_dynatraceQueries _ _ _ _ h₁, hs]
      rfl
    have e₂ : (addMessage (addMessage s m₁ response now) m₂ response
        now).context.dynatraceQueries = [m₁, m₂] := by
      rw [addMessage_dynatraceQueries _ _ _ _ h₂, e₁]
      rfl
    have e₃ : (addMessage (addMessage (addMessage s m₁ response now) m₂ response now) m₃
        response now).context.dynatraceQueries = [m₁, m₂, m₃] := by
      rw [addMessage_dynatraceQueries _ _ _ _ h₃, e₂]
      rfl
    have e₄ : (addMessage (addMessage (addMessage (addMessage s m₁ response now) m₂ response
        now) m₃ response now) m₄ response now).context.dynatraceQueries =
          [m₁, m₂, m₃, m₄] := by
      rw [addMessage_dynatraceQueries _ _ _ _ h₄, e₃]
      rfl
    have e₅ : (addMessage (addMessage (addMessage (addMessage (addMessage s m₁ response now)
        m₂ response now) m₃ response now) m₄ response now) m₅ response
        now).context.dynatraceQueries = [m₁, m₂, m₃, m₄, m₅] := by
      rw [addMessage_dynatraceQueries _ _ _ _ h₅, e₄]
      rfl
    have e₆ : (addMessage (addMessage (addMessage (addMessage (addMessage (addMessage s m₁
        response now) m₂ response now) m₃ response now) m₄ response now) m₅ response now) m₆
        response now).context.dynatraceQueries = [m₂, m₃, m₄, m₅, m₆] := by
      rw [addMessage_dynatraceQueries _ _ _ _ h₆, e₅]
      rfl
    have e₇ : (addMessage (addMessage (addMessage (addMessage (addMessage (addMessage
        (addMessage s m₁ response now) m₂ response now) m₃ response now) m₄ response now) m₅
        response now) m₆ response now) m₇ response now).context.dynatraceQueries =
          [m₃, m₄, m₅, m₆, m₇] := by
      rw [addMessage_dynatraceQueries _ _ _ _ h₇, e₆]
      rfl
    exact e₇

/-- Claim C7 witness: seven concrete live-query messages pushed into a fresh
session leave exactly the last five. -/
theorem C7_session_fifo_witness :
    (runMessages (createSession "s1" "T0")
        ["problems 1", "problems 2", "problems 3", "problems 4", "problems 5",
         "problems 6", "problems 7"] "resp" "T1").context.dynatraceQueries =
      ["problems 3", "problems 4", "problems 5", "problems 6", "problems 7"] :=
  C7_session_fifo.2 (createSession "s1" "T0") _ _ _ _ _ _ _ "resp" "T1" rfl
    (by decide) (by decide) (by decide) (by decide) (by decide) (by decide) (by decide)

/-- Claim C10: the live-query cache key depends only on the first 100
characters of the message — two messages equal on their first 100 characters
derive the same key, and (with a connected store) a result cached for one is
returned as a cache hit for the other. -/
theorem C10_cache_key_first100 (q₁ q₂ : String)
    (h : jsSubstring q₁ 100 = jsSubstring q₂ 100) :
    dtQueryCacheKey q₁ = dtQueryCacheKey q₂ ∧
    ∀ (st : RedisState) (result : Content),
      st.connected = true →
      getCachedDynatraceQuery (cacheDynatraceQuery st q₁ result).1 q₂ = some result := by
  have hkey : dtQueryCacheKey q₁ = dtQueryCacheKey q₂ := by
    unfold dtQueryCacheKey
    rw [h]
  refine ⟨hkey, fun st result hc => ?_⟩
  simp [RedisMiddleware.getCachedDynatraceQuery, RedisMiddleware.cacheDynatraceQuery,
    RedisMiddleware.get, RedisMiddleware.set, hc, hkey]

/-- Claim C10 witness: two 100-plus-character messages agreeing on their first
100 characters (the letter a repeated 100 times) but differing afterwards share one
cache slot. -/
theorem C10_cache_key_first100_witness :
    getCachedDynatraceQuery
      (cacheDynatraceQuery { connected := true, store := fun _ => none }
        (String.mk (List.replicate 100 'a' ++ ['x', 'y', 'z'])) (.str "cached")).1
      (String.mk (List.replicate 100 'a' ++ ['q'])) = some (.str "cached") :=
  (C10_cache_key_first100 (String.mk (List.replicate 100 'a' ++ ['x', 'y', 'z']))
    (String.mk (List.replicate 100 'a' ++ ['q'])) (by decide)).2
    { connected := true, store := fun _ => none } (.str "cached") rfl

/-- Claim C9 witness: a message matching neither topic rule leaves `id` and
the whole `context` of a fresh session unchanged. -/
theorem C9_frame_preservation_witness :
    (addMessage (createSession "s1" "T0") "hello there" "resp" "T1").id = "s1" ∧
    (addMessage (createSession "s1" "T0") "hello there" "resp" "T1").context =
      (createSession "s1" "T0").context := by
  have h := C9_frame_preservation (createSession "s1" "T0") "hello there" "resp" "T1"
  exact ⟨h.1, h.2.2.2.2.2 (by decide) (by decide)⟩

/-- The model-chat handler always yields a formatted, provenance-tagged
response (model provenance, or knowledge provenance after the fallback). -/
lemma handleOllamaChat_spec (message sessionId : String) (env : Env) (st : RedisState) :
    ∃ (c : Content) (src : String) (st' : RedisState),
      handleOllamaChat message sessionId env st =
        .ok (formatResponse c src env.now, st') ∧
      (src = "phi3-general" ∨ src = "knowledge") := by
  cases h : env.ollamaChat message none with
  | error e =>
      refine ⟨env.knowledgeQuery message, "knowledge", st, ?_, Or.inr rfl⟩
      simp [handleOllamaChat, handleKnowledgeQuery, h]
  | ok r =>
      refine ⟨.withMessage r.message, "phi3-general", st, ?_, Or.inl rfl⟩
      simp [handleOllamaChat, h]

/-- The live-query handler always yields a formatted, provenance-tagged
response, whatever the cache, the live API and the model backend do. -/
lemma handleDynatraceQuery_spec (message sessionId : String) (env : Env) (st : RedisState) :
    ∃ (c : Content) (src : String) (st' : RedisState),
      handleDynatraceQuery message sessionId env st =
        .ok (formatResponse c src env.now, st') ∧
      (src = "cache" ∨ src = "dynatrace-working-api" ∨ src = "phi3-general" ∨
       src = "knowledge") := by
  cases hc : RedisMiddleware.getCachedDynatraceQuery st message with
  | some cached =>
      exact ⟨cached, "cache", st, by simp [handleDynatraceQuery, hc], by simp⟩
  | none =>
      cases he : env.executeQuery message with
      | error e =>
          obtain ⟨c, src, st', hh, hsrc⟩ := handleOllamaChat_spec message sessionId env st
          refine ⟨c, src, st', ?_, ?_⟩
          · rw [← hh]
            simp [handleDynatraceQuery, hc, he]
          · tauto
      | ok apiResult =>
          cases hr : apiResult.realData
          · exact ⟨.withMessage apiResult.message, "dynatrace-working-api",
              (RedisMiddleware.cacheDynatraceQuery st message
                (.withMessage apiResult.message)).1,
              by simp [handleDynatraceQuery, hc, he, hr], by simp⟩
          · cases hp : env.ollamaChat ("Analyze these Dynatrace results: " ++ message)
                (some (buildDynatraceAnalysisContext message apiResult)) with
            | error e₂ =>
                exact ⟨.withMessage apiResult.message, "dynatrace-working-api",
                  (RedisMiddleware.cacheDynatraceQuery st message
                    (.withMessage apiResult.message)).1,
                  by simp [handleDynatraceQuery, hc, he, hr, hp], by simp⟩
            | ok phi3 =>
                exact ⟨.withMessage (apiResult.message ++
                    "\n\n---\n\n**🤖 AI Analysis:**\n" ++ phi3.message),
                  "dynatrace-working-api",
                  (RedisMiddleware.cacheDynatraceQuery st message
                    (.withMessage (apiResult.message ++
                      "\n\n---\n\n**🤖 AI Analysis:**\n" ++ phi3.message))).1,
                  by simp [handleDynatraceQuery, hc, he, hr, hp], by simp⟩

/-- Claim C1: for every message string, session id, backend behavior and cache
state, `handleMessage` returns (never rejects with) a value, and that value is
a formatted response carrying a provenance tag out of the handler vocabulary
and the per-request timestamp — internal backend failures are absorbed by the
fallback chain into formatted, tagged responses, never surfaced as raw
exceptions or stack traces. -/
theorem C1_handleMessage_always_formatted (message sessionId : String) (env : Env)
    (st : RedisState) :
    ∃ (content : Content) (source : String) (st' : RedisState),
      handleMessage message sessionId env st =
        Except.ok (formatResponse content source env.now, st') ∧
      (source = "cache" ∨ source = "dynatrace-working-api" ∨ source = "phi3-general" ∨
       source = "knowledge" ∨ source = "help") := by
  simp only [handleMessage]
  split
  · obtain ⟨c, src, st', hh, hsrc⟩ := handleDynatraceQuery_spec message sessionId env st
    exact ⟨c, src, st', hh, by tauto⟩
  · split
    · exact ⟨env.knowledgeQuery message, "knowledge", st, rfl, by tauto⟩
    · split
      · obtain ⟨c, src, st', hh, hsrc⟩ := handleOllamaChat_spec message sessionId env st
        exact ⟨c, src, st', hh, by tauto⟩
      · split
        · exact ⟨generateHelpResponse env.environmentUrl, "help", st, rfl, by tauto⟩
        · exact ⟨generateHelpResponse env.environmentUrl, "help", st, rfl, by tauto⟩

/-- Claim C2: when a message classifies as a live query and misses the cache,
a throwing live-API call makes `handleMessage` fall back to `handleOllamaChat`
on the same message rather than return an error; if the model call succeeds
the result is tagged with the model provenance (`phi3-general`), and if it
also fails the handler degrades further to the knowledge-base handling. -/
theorem C2_fallback_chain (message sessionId : String) (env : Env) (st : RedisState)
    (e : String)
    (hclass : classifyRequest message = "dynatrace_query")
    (hmiss : RedisMiddleware.getCachedDynatraceQuery st message = none)
    (hfail : env.executeQuery message = .error e) :
    handleMessage message sessionId env st = handleOllamaChat message sessionId env st ∧
    (∀ r : OllamaResp, env.ollamaChat message none = .ok r →
      handleMessage message sessionId env st =
        .ok (formatResponse (.withMessage r.message) "phi3-general" env.now, st)) ∧
    (∀ e₂ : String, env.ollamaChat message none = .error e₂ →
      handleMessage message sessionId env st =
        .ok (formatResponse (env.knowledgeQuery message) "knowledge" env.now, st)) := by
  have hm : handleMessage message sessionId env st =
      handleDynatraceQuery message sessionId env st := by
    simp [handleMessage, hclass]
  have hd : handleDynatraceQuery message sessionId env st =
      handleOllamaChat message sessionId env st := by
    simp [handleDynatraceQuery, hmiss, hfail]
  refine ⟨hm.trans hd, fun r hr => ?_, fun e₂ he₂ => ?_⟩
  · rw [hm, hd]
    simp [handleOllamaChat, hr]
  · rw [hm, hd]
    simp [handleOllamaChat, handleKnowledgeQuery, he₂]

/-- Claim C2 witness: with a live API that always throws and a model backend
that answers, `handleMessage "show problems" "s1"` returns the model-tagged
response. -/
theorem C2_fallback_chain_witness :
    handleMessage "show problems" "s1"
      { executeQuery := fun _ => .error "connect ECONNREFUSED"
        ollamaChat := fun _ _ => .ok { message := "model answer" }
        knowledgeQuery := fun _ => .str "kb doc"
        now := "2025-01-01T00:00:00Z"
        environmentUrl := "https://env.example" }
      { connected := false, store := fun _ => none } =
      .ok (formatResponse (.withMessage "model answer") "phi3-general"
        "2025-01-01T00:00:00Z", { connected := false, store := fun _ => none }) := by
  have h := C2_fallback_chain "show problems" "s1"
    { executeQuery := fun _ => .error "connect ECONNREFUSED"
      ollamaChat := fun _ _ => .ok { message := "model answer" }
      knowledgeQuery := fun _ => .str "kb doc"
      now := "2025-01-01T00:00:00Z"
      environmentUrl := "https://env.example" }
    { connected := false, store := fun _ => none }
    "connect ECONNREFUSED" (by decide) rfl rfl
  exact h.2.1 { message := "model answer" } rfl

end DMCP
